import Mathlib

/-!
Verification of the jupyterhealth/jhe-smart-demo chart-app OAuth core.

This file gives a shallow embedding, in Lean, of the OAuth-related code of
the repository (`src/chart-app/app/app.py`, `oauth.py`, `session.py`,
`jhe.py`) and proves properties of the embedded definitions.

Modelling conventions:
- Python dicts that preserve insertion order are modelled as association
  lists `List (String × α)`; assignment `d[k] = v` is `alistSet` (update in
  place when the key exists, append otherwise), matching CPython semantics.
- Bytes are `Nat` values below 256; byte strings are `List Nat`.
- Network I/O is modelled by oracle functions passed explicitly: an HTTP
  GET is a function `String → FetchOutcome`, an HTTP POST a function from
  url and form body to a response.  A response body is
  `Option (List (String × String))`: `none` models a body `r.json()` fails
  to parse, `some j` a parsed JSON object (the code only reads string
  fields of these objects).
- Python exceptions that terminate a handler are modelled with the
  `Except` monad over the `PyErr` type below.
-/

/-- Python `d.get(k)` / `d[k]` read on an insertion-ordered dict modelled
as an association list. -/
def alistGet {α : Type} : List (String × α) → String → Option α
  | [], _ => none
  | (a, b) :: t, k => if a = k then some b else alistGet t k

/-- Python `d[k] = v` on an insertion-ordered dict modelled as an
association list: replace in place if `k` is present, append otherwise. -/
def alistSet {α : Type} : List (String × α) → String → α → List (String × α)
  | [], k, v => [(k, v)]
  | (a, b) :: t, k, v => if a = k then (k, v) :: t else (a, b) :: alistSet t k v

theorem alistGet_alistSet_self {α : Type} (m : List (String × α)) (k : String) (v : α) :
    alistGet (alistSet m k v) k = some v := by
  induction m with
  | nil => simp [alistSet, alistGet]
  | cons p t ih =>
    by_cases h : p.1 = k
    · simp [alistSet, h, alistGet]
    · simpa [alistSet, h, alistGet] using ih

theorem alistGet_alistSet_ne {α : Type} (m : List (String × α)) (k k2 : String) (v : α)
    (h : k ≠ k2) : alistGet (alistSet m k v) k2 = alistGet m k2 := by
  induction m with
  | nil => simp [alistSet, alistGet, h]
  | cons p t ih =>
    by_cases hp : p.1 = k
    · simp [alistSet, hp, alistGet, h]
    · by_cases hk2 : p.1 = k2
      · simp [alistSet, hp, alistGet, hk2, Ne.symm h]
      · simpa [alistSet, hp, alistGet, hk2] using ih

/-- Python `base.update(extra)` on insertion-ordered dicts. -/
def dictUpdate {α : Type} (base extra : List (String × α)) : List (String × α) :=
  extra.foldl (fun acc kv => alistSet acc kv.1 kv.2) base

/-! ## base64url (RFC 4648 url-safe alphabet), as used by Python's
`base64.urlsafe_b64encode` and `secrets.token_urlsafe`. -/

/-- The url-safe base64 alphabet: index 0..63 to character. -/
def b64CharAux (i : Nat) : Char :=
  if i < 26 then Char.ofNat (65 + i)
  else if i < 52 then Char.ofNat (97 + (i - 26))
  else if i < 62 then Char.ofNat (48 + (i - 52))
  else if i = 62 then '-'
  else '_'

def b64Char (n : Nat) : Char := b64CharAux (n % 64)

/-- url-safe base64 encoding of a byte list, with `=` padding, three input
bytes to four output characters (Python `base64.urlsafe_b64encode`). -/
def b64EncodeChunks : List Nat → List Char
  | b0 :: b1 :: b2 :: rest =>
      b64Char (b0 / 4) :: b64Char (b0 % 4 * 16 + b1 / 16) ::
      b64Char (b1 % 16 * 4 + b2 / 64) :: b64Char (b2 % 64) :: b64EncodeChunks rest
  | [b0, b1] => [b64Char (b0 / 4), b64Char (b0 % 4 * 16 + b1 / 16), b64Char (b1 % 16 * 4), '=']
  | [b0] => [b64Char (b0 / 4), b64Char (b0 % 4 * 16), '=', '=']
  | [] => []

/-- url-safe base64 without padding, written directly (no `=` appended):
the reference form `base64url_nopad` that the spec names. -/
def b64NoPadChunks : List Nat → List Char
  | b0 :: b1 :: b2 :: rest =>
      b64Char (b0 / 4) :: b64Char (b0 % 4 * 16 + b1 / 16) ::
      b64Char (b1 % 16 * 4 + b2 / 64) :: b64Char (b2 % 64) :: b64NoPadChunks rest
  | [b0, b1] => [b64Char (b0 / 4), b64Char (b0 % 4 * 16 + b1 / 16), b64Char (b1 % 16 * 4)]
  | [b0] => [b64Char (b0 / 4), b64Char (b0 % 4 * 16)]
  | [] => []

def base64urlEncode (bs : List Nat) : String := String.mk (b64EncodeChunks bs)

def base64urlNoPad (bs : List Nat) : String := String.mk (b64NoPadChunks bs)

/-- Python `.rstrip("=")` on the characters of a string. -/
def rstripEqL (cs : List Char) : List Char :=
  (cs.reverse.dropWhile (fun c => c = '=')).reverse

def rstripEq (s : String) : String := String.mk (rstripEqL s.data)

theorem b64Char_ne_pad (n : Nat) : b64Char n ≠ '=' := by
  have h : ∀ i, i < 64 → b64CharAux i ≠ '=' := by decide
  exact h (n % 64) (Nat.mod_lt _ (by decide))

/-- A character of the url-safe alphabet: letters, digits, `-`, `_`. -/
def urlSafeChar (c : Char) : Bool := c.isAlphanum || c == '-' || c == '_'

theorem urlSafeChar_b64Char (n : Nat) : urlSafeChar (b64Char n) = true := by
  have h : ∀ i, i < 64 → urlSafeChar (b64CharAux i) = true := by decide
  exact h (n % 64) (Nat.mod_lt _ (by decide))

theorem rstripEqL_append (xs ys : List Char) (h : rstripEqL ys ≠ []) :
    rstripEqL (xs ++ ys) = xs ++ rstripEqL ys := by
  unfold rstripEqL at *
  rw [List.reverse_append, List.dropWhile_append]
  have hne : ¬ (ys.reverse.dropWhile (fun c => c = '=')).isEmpty = true := by
    intro he
    exact h (by simpa [List.isEmpty_iff] using he)
  rw [if_neg hne, List.reverse_append]
  simp

theorem b64NoPadChunks_ne_nil : ∀ bs : List Nat, bs ≠ [] → b64NoPadChunks bs ≠ []
  | [], h => absurd rfl h
  | [_], _ => by simp [b64NoPadChunks]
  | [_, _], _ => by simp [b64NoPadChunks]
  | _ :: _ :: _ :: _, _ => by simp [b64NoPadChunks]

theorem rstripEqL_b64EncodeChunks :
    ∀ bs : List Nat, rstripEqL (b64EncodeChunks bs) = b64NoPadChunks bs
  | [] => by simp [b64EncodeChunks, b64NoPadChunks, rstripEqL]
  | [b0] => by
    simp only [b64EncodeChunks, b64NoPadChunks, rstripEqL, List.reverse_cons,
      List.reverse_nil, List.nil_append, List.cons_append, List.dropWhile]
    simp [b64Char_ne_pad]
  | [b0, b1] => by
    simp only [b64EncodeChunks, b64NoPadChunks, rstripEqL, List.reverse_cons,
      List.reverse_nil, List.nil_append, List.cons_append, List.dropWhile]
    simp [b64Char_ne_pad]
  | b0 :: b1 :: b2 :: rest => by
    have ih := rstripEqL_b64EncodeChunks rest
    by_cases hrest : rest = []
    · subst hrest
      simp only [b64EncodeChunks, b64NoPadChunks, rstripEqL, List.reverse_cons,
        List.reverse_nil, List.nil_append, List.cons_append, List.dropWhile]
      simp [b64Char_ne_pad]
    · have h4 : b64EncodeChunks (b0 :: b1 :: b2 :: rest) =
          [b64Char (b0 / 4), b64Char (b0 % 4 * 16 + b1 / 16),
           b64Char (b1 % 16 * 4 + b2 / 64), b64Char (b2 % 64)] ++ b64EncodeChunks rest := by
        simp [b64EncodeChunks]
      have h5 : b64NoPadChunks (b0 :: b1 :: b2 :: rest) =
          [b64Char (b0 / 4), b64Char (b0 % 4 * 16 + b1 / 16),
           b64Char (b1 % 16 * 4 + b2 / 64), b64Char (b2 % 64)] ++ b64NoPadChunks rest := by
        simp [b64NoPadChunks]
      rw [h4, h5, rstripEqL_append _ _ (by rw [ih]; exact b64NoPadChunks_ne_nil rest hrest), ih]

theorem b64NoPadChunks_urlSafe :
    ∀ bs : List Nat, ∀ c ∈ b64NoPadChunks bs, urlSafeChar c = true
  | [], c, hc => by simp [b64NoPadChunks] at hc
  | [b0], c, hc => by
    simp only [b64NoPadChunks, List.mem_cons, List.not_mem_nil, or_false] at hc
    rcases hc with h | h <;> (subst h; exact urlSafeChar_b64Char _)
  | [b0, b1], c, hc => by
    simp only [b64NoPadChunks, List.mem_cons, List.not_mem_nil, or_false] at hc
    rcases hc with h | h | h <;> (subst h; exact urlSafeChar_b64Char _)
  | b0 :: b1 :: b2 :: rest, c, hc => by
    simp only [b64NoPadChunks, List.mem_cons] at hc
    rcases hc with h | h | h | h | h
    · subst h; exact urlSafeChar_b64Char _
    · subst h; exact urlSafeChar_b64Char _
    · subst h; exact urlSafeChar_b64Char _
    · subst h; exact urlSafeChar_b64Char _
    · exact b64NoPadChunks_urlSafe rest c h

theorem b64NoPadChunks_length_ge :
    ∀ bs : List Nat, bs.length ≤ (b64NoPadChunks bs).length
  | [] => by simp [b64NoPadChunks]
  | [b0] => by simp [b64NoPadChunks]
  | [b0, b1] => by simp [b64NoPadChunks]
  | b0 :: b1 :: b2 :: rest => by
    have ih := b64NoPadChunks_length_ge rest
    simp only [b64NoPadChunks, List.length_cons]
    omega

/-! ## SHA-256 (FIPS 180-4), as used by Python's `hashlib.sha256`.
Words are `Nat` values kept below `2 ^ 32` by `w32`. -/

def w32 (n : Nat) : Nat := n % 4294967296

def rotr32 (k x : Nat) : Nat := w32 (x / 2 ^ k + x % 2 ^ k * 2 ^ (32 - k))

def shr32 (k x : Nat) : Nat := x / 2 ^ k

/-- Bitwise complement within 32 bits (the argument is reduced first). -/
def notW (x : Nat) : Nat := 4294967295 - w32 x

def chW (x y z : Nat) : Nat := Nat.xor (Nat.land x y) (Nat.land (notW x) z)

def majW (x y z : Nat) : Nat :=
  Nat.xor (Nat.xor (Nat.land x y) (Nat.land x z)) (Nat.land y z)

def bigS0 (x : Nat) : Nat := Nat.xor (Nat.xor (rotr32 2 x) (rotr32 13 x)) (rotr32 22 x)

def bigS1 (x : Nat) : Nat := Nat.xor (Nat.xor (rotr32 6 x) (rotr32 11 x)) (rotr32 25 x)

def smallS0 (x : Nat) : Nat := Nat.xor (Nat.xor (rotr32 7 x) (rotr32 18 x)) (shr32 3 x)

def smallS1 (x : Nat) : Nat := Nat.xor (Nat.xor (rotr32 17 x) (rotr32 19 x)) (shr32 10 x)

/-- The 64 SHA-256 round constants. -/
def sha256K : List Nat :=
  [1116352408, 1899447441, 3049323471, 3921009573, 961987163, 1508970993,
   2453635748, 2870763221, 3624381080, 310598401, 607225278, 1426881987,
   1925078388, 2162078206, 2614888103, 3248222580, 3835390401, 4022224774,
   264347078, 604807628, 770255983, 1249150122, 1555081692, 1996064986,
   2554220882, 2821834349, 2952996808, 3210313671, 3336571891, 3584528711,
   113926993, 338241895, 666307205, 773529912, 1294757372, 1396182291,
   1695183700, 1986661051, 2177026350, 2456956037, 2730485921, 2820302411,
   3259730800, 3345764771, 3516065817, 3600352804, 4094571909, 275423344,
   430227734, 506948616, 659060556, 883997877, 958139571, 1322822218,
   1537002063, 1747873779, 1955562222, 2024104815, 2227730452, 2361852424,
   2428436474, 2756734187, 3204031479, 3329325298]

/-- The SHA-256 initial hash value. -/
def sha256H0 : List Nat :=
  [1779033703, 3144134277, 1013904242, 2773480762,
   1359893119, 2600822924, 528734635, 1541459225]

/-- Big-endian bytes of `n`, `k` bytes wide. -/
def beBytes (k n : Nat) : List Nat :=
  (List.range k).map (fun i => n / 2 ^ (8 * (k - 1 - i)) % 256)

/-- Big-endian 32-bit words from bytes, four at a time. -/
def bytesToWords : List Nat → List Nat
  | b0 :: b1 :: b2 :: b3 :: rest => (((b0 * 256 + b1) * 256 + b2) * 256 + b3) :: bytesToWords rest
  | _ => []

/-- Extend a 16-word block to the 64-word message schedule; the fuel is the
number of words still to append (48). -/
def extendSchedule : Nat → List Nat → List Nat
  | 0, ws => ws
  | fuel + 1, ws =>
    let n := ws.length
    let wNew := w32 (smallS1 (ws.getD (n - 2) 0) + ws.getD (n - 7) 0 +
      smallS0 (ws.getD (n - 15) 0) + ws.getD (n - 16) 0)
    extendSchedule fuel (ws ++ [wNew])

/-- One SHA-256 compression round on the working state `[a,b,c,d,e,f,g,h]`. -/
def sha256Round (st : List Nat) (k w : Nat) : List Nat :=
  match st with
  | [a, b, c, d, e, f, g, hh] =>
    let t1 := w32 (hh + bigS1 e + chW e f g + k + w)
    let t2 := w32 (bigS0 a + majW a b c)
    [w32 (t1 + t2), a, b, c, w32 (d + t1), e, f, g]
  | other => other

/-- Compress one 64-byte block into the running hash. -/
def processBlock (hs : List Nat) (block : List Nat) : List Nat :=
  let ws := extendSchedule 48 (bytesToWords block)
  let st := (sha256K.zip ws).foldl (fun s kw => sha256Round s kw.1 kw.2) hs
  (hs.zip st).map (fun p => w32 (p.1 + p.2))

/-- Fold over all 64-byte blocks; the fuel is the byte count, which bounds
the number of blocks. -/
def sha256Blocks : Nat → List Nat → List Nat → List Nat
  | _, [], hs => hs
  | 0, _, hs => hs
  | fuel + 1, bytes, hs => sha256Blocks fuel (bytes.drop 64) (processBlock hs (bytes.take 64))

/-- SHA-256 padding: `0x80`, zeros to 56 mod 64, then the 64-bit big-endian
bit length. -/
def sha256Pad (msg : List Nat) : List Nat :=
  let L := msg.length
  let k := (119 - L % 64) % 64
  msg ++ [128] ++ List.replicate k 0 ++ beBytes 8 (8 * L)

/-- SHA-256 digest (32 bytes) of a byte list. -/
def sha256 (msg : List Nat) : List Nat :=
  let padded := sha256Pad msg
  let hs := sha256Blocks padded.length padded sha256H0
  hs.foldr (fun w acc => beBytes 4 w ++ acc) []

/-- UTF-8 encoding of one character (Python `str.encode("utf-8")`). -/
def utf8EncodeChar (c : Char) : List Nat :=
  let n := c.toNat
  if n < 128 then [n]
  else if n < 2048 then [192 + n / 64, 128 + n % 64]
  else if n < 65536 then [224 + n / 4096, 128 + n / 64 % 64, 128 + n % 64]
  else [240 + n / 262144, 128 + n / 4096 % 64, 128 + n / 64 % 64, 128 + n % 64]

/-- UTF-8 bytes of a string. -/
def utf8Bytes (s : String) : List Nat :=
  s.data.foldr (fun c acc => utf8EncodeChar c ++ acc) []

example : sha256 (utf8Bytes "abc") =
    [186, 120, 22, 191, 143, 1, 207, 234, 65, 65,
     64, 222, 93, 174, 34, 35, 176, 3, 97, 163,
     150, 23, 122, 156, 180, 16, 255, 97, 242, 0,
     21, 173] := by decide

example : sha256 [] =
    [227, 176, 196, 66, 152, 252, 28, 20, 154, 251,
     244, 200, 153, 111, 185, 36, 39, 174, 65, 228,
     100, 155, 147, 76, 164, 149, 153, 27, 120, 82,
     184, 85] := by decide

/-! ## PKCE generator (`_generate_pkce_params` in `oauth.py` and `app.py`). -/

/-- Python `secrets.token_urlsafe(n)` applied to its random byte draw:
url-safe base64 of the bytes with the `=` padding stripped.  The random
draw `os.urandom(n)` is the explicit `randomBytes` argument here. -/
def tokenUrlsafe (randomBytes : List Nat) : String :=
  rstripEq (base64urlEncode randomBytes)

/-- `_generate_pkce_params` from `src/chart-app/app/oauth.py` (also
duplicated in `app.py`): the code verifier is `secrets.token_urlsafe(32)`,
the challenge is `base64.urlsafe_b64encode(sha256(verifier.encode("utf-8")))`
with `.rstrip("=")`.  The 32-byte random draw inside `token_urlsafe` is the
explicit `randomBytes` argument. -/
def generatePkceParams (randomBytes : List Nat) : String × String :=
  let code_verifier := tokenUrlsafe randomBytes
  let code_challenge := sha256 (utf8Bytes code_verifier)
  let code_challenge_base64 := rstripEq (base64urlEncode code_challenge)
  (code_verifier, code_challenge_base64)

theorem rstripEq_base64urlEncode (bs : List Nat) :
    rstripEq (base64urlEncode bs) = base64urlNoPad bs := by
  simp only [rstripEq, base64urlEncode, base64urlNoPad]
  rw [rstripEqL_b64EncodeChunks]

/-- C3: for every PKCE pair produced by `_generate_pkce_params`, the code
challenge is the base64url encoding, with padding removed, of the SHA-256
digest of the UTF-8 bytes of the code verifier; the code verifier is a
URL-safe string, is exactly the url-safe token derived from the random
input bytes, and a draw of at least 32 random bytes yields a verifier of
at least 32 characters. -/
theorem generate_pkce_params_spec (randomBytes : List Nat)
    (hlen : 32 ≤ randomBytes.length) :
    (generatePkceParams randomBytes).2 =
      base64urlNoPad (sha256 (utf8Bytes (generatePkceParams randomBytes).1))
    ∧ (∀ c ∈ ((generatePkceParams randomBytes).1).data, urlSafeChar c = true)
    ∧ (generatePkceParams randomBytes).1 = tokenUrlsafe randomBytes
    ∧ 32 ≤ ((generatePkceParams randomBytes).1).length := by
  have hv : (generatePkceParams randomBytes).1 = base64urlNoPad randomBytes := by
    simp only [generatePkceParams, tokenUrlsafe]
    exact rstripEq_base64urlEncode randomBytes
  refine ⟨?_, ?_, ?_, ?_⟩
  · simp only [generatePkceParams]
    exact rstripEq_base64urlEncode _
  · intro c hc
    rw [hv] at hc
    exact b64NoPadChunks_urlSafe randomBytes c hc
  · simp [generatePkceParams]
  · rw [hv]
    have : randomBytes.length ≤ (b64NoPadChunks randomBytes).length :=
      b64NoPadChunks_length_ge randomBytes
    simp only [base64urlNoPad, String.length]
    omega

/-- Witness for C3 at a concrete 32-byte random draw. -/
theorem generate_pkce_params_spec_witness :
    (generatePkceParams (List.range 32)).2 =
      base64urlNoPad (sha256 (utf8Bytes (generatePkceParams (List.range 32)).1))
    ∧ (∀ c ∈ ((generatePkceParams (List.range 32)).1).data, urlSafeChar c = true)
    ∧ (generatePkceParams (List.range 32)).1 = tokenUrlsafe (List.range 32)
    ∧ 32 ≤ ((generatePkceParams (List.range 32)).1).length :=
  generate_pkce_params_spec (List.range 32) (by decide)

/-! ## HTTP and error model. -/

deriving instance DecidableEq for Except

/-- The Python exceptions the OAuth code can raise. -/
inductive PyErr where
  /-- `fastapi.HTTPException(status_code, detail)`. -/
  | httpEx (status : Nat) (detail : String)
  /-- `r.raise_for_status()` on a response with status ≥ 400. -/
  | httpStatusErr (status : Nat)
  /-- A transport error from `httpx`/`requests` (connect error, timeout). -/
  | netErr (msg : String)
  /-- `r.json()` on a body that is not valid JSON. -/
  | jsonDecodeErr
  /-- `d[key]` on a dict missing `key`. -/
  | keyErr (key : String)
  /-- A failed `assert`. -/
  | assertionErr
deriving DecidableEq, Repr

/-- An HTTP response: status code and the outcome of parsing the body as a
JSON object (`none` models a body `r.json()` raises on; nested or
non-string JSON values are not read by this code, so fields are strings). -/
structure HttpResponse where
  status : Nat
  body : Option (List (String × String))
deriving DecidableEq, Repr

/-- The outcome of `await client.get(url)`: a transport exception or a
response. -/
inductive FetchOutcome where
  | exc (msg : String)
  | resp (r : HttpResponse)
deriving DecidableEq, Repr

/-- `r = await client.get(url); r.raise_for_status()` for a GET oracle:
`httpx.Response.raise_for_status` raises `HTTPStatusError` for any
response that is not 2xx (the client does not follow redirects by
default, so a 3xx response is returned here and raises too). -/
def httpGetCheck (fetch : String → FetchOutcome) (url : String) :
    Except PyErr HttpResponse :=
  match fetch url with
  | .exc msg => .error (.netErr msg)
  | .resp r =>
    if 200 ≤ r.status ∧ r.status < 300 then .ok r else .error (.httpStatusErr r.status)

/-- `config = r.json()` after a successful GET. -/
def jsonOf (r : HttpResponse) : Except PyErr (List (String × String)) :=
  match r.body with
  | some j => .ok j
  | none => .error .jsonDecodeErr

/-! ## Discovery (`_get_openid_config` in `oauth.py` and `app.py`). -/

/-- Python `openid_base_uri.rstrip("/")`. -/
def dropTrailingSlash (s : String) : String :=
  String.mk (s.data.reverse.dropWhile (fun c => c = '/')).reverse

/-- The path-suffix discovery URL tried first. -/
def wellKnownUrl (openid_base_uri : String) : String :=
  dropTrailingSlash openid_base_uri ++ "/.well-known/openid-configuration"

/-- Split off the scheme at the first `://`: `some (scheme, rest)` when
the characters contain `://`, `none` otherwise. -/
def splitSchemeAux : List Char → Option (List Char × List Char)
  | [] => none
  | ':' :: '/' :: '/' :: rest => some ([], rest)
  | c :: rest =>
    match splitSchemeAux rest with
    | some (pre, post) => some (c :: pre, post)
    | none => none

/-- Split a character list at the first occurrence of `sep`: the part
before it and the part after it; the whole list and `[]` when `sep` is
absent (indistinguishable from a trailing `sep`, exactly as an empty
`urlparse` component behaves through `urlunparse`). -/
def splitAtFirstChar (sep : Char) : List Char → List Char × List Char
  | [] => ([], [])
  | c :: rest =>
    if c = sep then ([], rest)
    else
      let p := splitAtFirstChar sep rest
      (c :: p.1, p.2)

/-- Python `urllib.parse._splitparams`: the params component is what
follows the first `;` of the last `/`-segment of the path. -/
def splitParams (path : List Char) : List Char × List Char :=
  if path.contains '/' then
    let revPath := path.reverse
    let seg := (revPath.takeWhile (fun c => c != '/')).reverse
    let pre := (revPath.dropWhile (fun c => c != '/')).reverse
    let sp := splitAtFirstChar ';' seg
    (pre ++ sp.1, sp.2)
  else splitAtFirstChar ';' path

/-- A valid `urlparse` scheme: a letter followed by letters, digits,
`+`, `-` or `.`. -/
def isSchemeChars : List Char → Bool
  | [] => false
  | c :: rest => c.isAlpha && rest.all (fun d => d.isAlphanum || d == '+' || d == '-' || d == '.')

/-- The part of the root-replaced URL after the netloc: the replaced path
with the original params, query and fragment re-appended when non-empty
(`urlunparse` omits empty components). -/
def rootReplaceTail (chars : List Char) : String :=
  let f := splitAtFirstChar '#' chars
  let q := splitAtFirstChar '?' f.1
  let pp := splitParams q.1
  "/.well-known/openid-configuration"
    ++ (if pp.2.isEmpty then "" else ";" ++ String.mk pp.2)
    ++ (if q.2.isEmpty then "" else "?" ++ String.mk q.2)
    ++ (if f.2.isEmpty then "" else "#" ++ String.mk f.2)

/-- The scheme-less case of `urlparse`: a leading `//` still introduces a
netloc (terminated by `/`, `?` or `#`); otherwise everything is path,
query and fragment. -/
def rootNoScheme (chars : List Char) : String :=
  match chars with
  | '/' :: '/' :: rest =>
    let netloc := rest.takeWhile (fun c => c != '/' && c != '?' && c != '#')
    let afterNetloc := rest.dropWhile (fun c => c != '/' && c != '?' && c != '#')
    "//" ++ String.mk netloc ++ rootReplaceTail afterNetloc
  | _ => rootReplaceTail chars

/-- The root-replaced discovery URL:
`urlunparse(urlparse(uri)._replace(path="/.well-known/openid-configuration"))`.
`urlparse` is modelled componentwise: scheme (before `://`, lowercased,
when its characters form a valid scheme), netloc (up to the first `/`,
`?` or `#`), fragment (after the first `#` of the remainder), query
(after the first `?` before the fragment) and params (after the first `;`
of the path's last segment); `urlunparse` re-appends params, query and
fragment only when non-empty.  Not modelled: the `scheme:opaque-path`
form without `//`, whose first `:` is not part of a `://`. -/
def rootWellKnown (uri : String) : String :=
  match splitSchemeAux uri.data with
  | none => rootNoScheme uri.data
  | some (scheme, rest) =>
    if isSchemeChars scheme then
      let netloc := rest.takeWhile (fun c => c != '/' && c != '?' && c != '#')
      let afterNetloc := rest.dropWhile (fun c => c != '/' && c != '?' && c != '#')
      String.mk (scheme.map Char.toLower) ++ "://" ++ String.mk netloc
        ++ rootReplaceTail afterNetloc
    else rootNoScheme uri.data

example : rootWellKnown "https://idp.example/fhir" =
    "https://idp.example/.well-known/openid-configuration" := by decide

example : rootWellKnown "https://h/p;x?q#f" =
    "https://h/.well-known/openid-configuration;x?q#f" := by decide

example : rootWellKnown "HTTPS://Host/p?Q" =
    "https://Host/.well-known/openid-configuration?Q" := by decide

example : rootWellKnown "https://h/a;p/b;x?q" =
    "https://h/.well-known/openid-configuration;x?q" := by decide

example : rootWellKnown "https://h/p?" =
    "https://h/.well-known/openid-configuration" := by decide

example : rootWellKnown "noscheme/path?q#f" =
    "/.well-known/openid-configuration?q#f" := by decide

/-- The body of `_get_openid_config` (before the `alru_cache` layer): GET
the path-suffix URL; on `httpx` error or bad status, GET the root-replaced
URL; if that fails too, re-raise the first error (`raise e from None`).
`r.json()` runs outside the try blocks, on whichever response succeeded.
Returns the list of URLs fetched, in order, and the result. -/
def getOpenidConfigCore (fetch : String → FetchOutcome) (openid_base_uri : String) :
    List String × Except PyErr (List (String × String)) :=
  let url1 := wellKnownUrl openid_base_uri
  match httpGetCheck fetch url1 with
  | .ok r => ([url1], jsonOf r)
  | .error e =>
    let url2 := rootWellKnown openid_base_uri
    match httpGetCheck fetch url2 with
    | .ok r2 => ([url1, url2], jsonOf r2)
    | .error _ => ([url1, url2], .error e)

/-- Remove the entry with key `k` (its first occurrence). -/
def alistRemove {α : Type} : List (String × α) → String → List (String × α)
  | [], _ => []
  | (a, b) :: t, k => if a = k then t else (a, b) :: alistRemove t k

/-- `async_lru.alru_cache`'s default `maxsize` (the bare decorator in the
source keeps it). -/
def alruMaxsize : Nat := 128

/-- The bare-`@alru_cache` layer over `_get_openid_config`: an LRU cache
bounded at the default 128 entries, keyed by the exact argument string.
The cache list is kept in recency order, least-recently-used first.  A hit
does no fetch and moves its entry to most-recently-used; a successful miss
is stored, evicting the least-recently-used entry once the bound is
exceeded; an exception is not cached.  Returns the new cache, the URLs
fetched, and the result. -/
def getOpenidConfigCached (fetch : String → FetchOutcome)
    (cache : List (String × List (String × String))) (openid_base_uri : String) :
    List (String × List (String × String)) × List String ×
      Except PyErr (List (String × String)) :=
  match alistGet cache openid_base_uri with
  | some j => (alistRemove cache openid_base_uri ++ [(openid_base_uri, j)], [], .ok j)
  | none =>
    let tr := getOpenidConfigCore fetch openid_base_uri
    match tr.2 with
    | .ok j =>
      let stored := cache ++ [(openid_base_uri, j)]
      (if alruMaxsize < stored.length then stored.drop 1 else stored, tr.1, .ok j)
    | .error e => (cache, tr.1, .error e)

/-- C9 (amended): discovery tries the path-suffix URL first; a transport
error or a non-2xx status on that GET triggers the root-replaced
fallback; when both GETs fail, the raised error is the first attempt's;
but a successful first response whose body is malformed JSON raises the
JSON error directly, without attempting the fallback (`r.json()` runs
outside the try blocks). -/
theorem get_openid_config_fallback_behavior (fetch : String → FetchOutcome)
    (base : String) :
    (∀ r, httpGetCheck fetch (wellKnownUrl base) = .ok r →
      getOpenidConfigCore fetch base = ([wellKnownUrl base], jsonOf r))
    ∧ (∀ e, httpGetCheck fetch (wellKnownUrl base) = .error e →
        (getOpenidConfigCore fetch base).1 = [wellKnownUrl base, rootWellKnown base]
        ∧ (∀ r2, httpGetCheck fetch (rootWellKnown base) = .ok r2 →
            (getOpenidConfigCore fetch base).2 = jsonOf r2)
        ∧ (∀ e2, httpGetCheck fetch (rootWellKnown base) = .error e2 →
            (getOpenidConfigCore fetch base).2 = .error e)) := by
  constructor
  · intro r hr
    simp [getOpenidConfigCore, hr]
  · intro e he
    refine ⟨?_, ?_, ?_⟩
    · cases h2 : httpGetCheck fetch (rootWellKnown base) <;>
        simp [getOpenidConfigCore, he, h2]
    · intro r2 h2
      simp [getOpenidConfigCore, he, h2]
    · intro e2 h2
      simp [getOpenidConfigCore, he, h2]

/-- A GET oracle for the C9 counterexample: the path-suffix discovery URL
answers 200 with a body that is not valid JSON; every other URL fails at
the transport level. -/
def fetchMalformedFirst : String → FetchOutcome := fun url =>
  if url = "https://idp.example/fhir/.well-known/openid-configuration" then
    .resp ⟨200, none⟩
  else .exc "connect error"

/-- C9 counterexample: with a 200-but-malformed-JSON first response, only
the path-suffix URL is fetched — the root-replaced form is never
attempted, and the raised error is the JSON decode error. -/
theorem get_openid_config_malformed_json_cex :
    (getOpenidConfigCore fetchMalformedFirst "https://idp.example/fhir").1 =
      ["https://idp.example/fhir/.well-known/openid-configuration"]
    ∧ (getOpenidConfigCore fetchMalformedFirst "https://idp.example/fhir").2 =
      .error .jsonDecodeErr
    ∧ ((getOpenidConfigCore fetchMalformedFirst "https://idp.example/fhir").1).contains
        (rootWellKnown "https://idp.example/fhir") = false := by decide

theorem alistGet_append {α : Type} (xs ys : List (String × α)) (k : String) :
    alistGet (xs ++ ys) k =
      match alistGet xs k with
      | some v => some v
      | none => alistGet ys k := by
  induction xs with
  | nil => simp [alistGet]
  | cons p t ih =>
    by_cases h : p.1 = k <;> simp [alistGet, h, ih]

theorem alistGet_eq_none_of_not_mem {α : Type} (m : List (String × α)) (k : String)
    (h : k ∉ m.map Prod.fst) : alistGet m k = none := by
  induction m with
  | nil => rfl
  | cons p t ih =>
    simp only [List.map_cons, List.mem_cons] at h
    push_neg at h
    obtain ⟨h1, h2⟩ := h
    have hne : ¬ p.1 = k := fun e => h1 e.symm
    simp [alistGet, hne, ih h2]

theorem alistGet_alistRemove_self {α : Type} (m : List (String × α)) (k : String)
    (hnd : (m.map Prod.fst).Nodup) : alistGet (alistRemove m k) k = none := by
  induction m with
  | nil => rfl
  | cons p t ih =>
    simp only [List.map_cons, List.nodup_cons] at hnd
    by_cases h : p.1 = k
    · subst h
      simp only [alistRemove, if_pos rfl]
      exact alistGet_eq_none_of_not_mem t p.1 hnd.1
    · simp [alistRemove, h, alistGet, ih hnd.2]

theorem alistGet_append_singleton {α : Type} (m : List (String × α)) (k : String) (v : α)
    (h : alistGet m k = none) : alistGet (m ++ [(k, v)]) k = some v := by
  simp [alistGet_append, h, alistGet]

theorem alistGet_tail_of_none {α : Type} (p : String × α) (t : List (String × α))
    (k : String) (h : alistGet (p :: t) k = none) : alistGet t k = none := by
  by_cases hp : p.1 = k
  · simp [alistGet, hp] at h
  · simpa [alistGet, hp] using h

theorem alistRemove_length {α : Type} (m : List (String × α)) (k : String) (v : α)
    (h : alistGet m k = some v) : (alistRemove m k).length + 1 = m.length := by
  induction m with
  | nil => simp [alistGet] at h
  | cons p t ih =>
    by_cases hp : p.1 = k
    · simp [alistRemove, hp]
    · simp only [alistGet, if_neg hp] at h
      simp [alistRemove, hp, ih h]

theorem getOpenidConfigCached_hit (fetch : String → FetchOutcome)
    (cache : List (String × List (String × String))) (base : String)
    (j : List (String × String)) (h : alistGet cache base = some j) :
    getOpenidConfigCached fetch cache base =
      (alistRemove cache base ++ [(base, j)], [], .ok j) := by
  simp [getOpenidConfigCached, h]

/-- C10 (amended): the `alru_cache` over `_get_openid_config` is keyed by
the exact input string, not the normalized issuer base URI: a hit returns
the stored document with no fetch, moving its entry to most-recently-used;
a miss delegates to the underlying fetch logic; a successful resolution is
stored — evicting the least-recently-used entry once the cache exceeds the
default 128-entry bound — so repeating the same exact input string is a
pure cache hit with no further fetch; entries are not expired by time,
only displaced by the LRU bound. -/
theorem openid_config_cache_behavior (fetch : String → FetchOutcome)
    (cache : List (String × List (String × String))) (base : String)
    (hnd : (cache.map Prod.fst).Nodup) :
    (∀ j, alistGet cache base = some j →
      getOpenidConfigCached fetch cache base =
        (alistRemove cache base ++ [(base, j)], [], .ok j))
    ∧ (alistGet cache base = none →
        (getOpenidConfigCached fetch cache base).2.1 = (getOpenidConfigCore fetch base).1
        ∧ (getOpenidConfigCached fetch cache base).2.2 = (getOpenidConfigCore fetch base).2)
    ∧ (∀ j, (getOpenidConfigCached fetch cache base).2.2 = .ok j →
        alistGet (getOpenidConfigCached fetch cache base).1 base = some j)
    ∧ (cache.length ≤ alruMaxsize →
        (getOpenidConfigCached fetch cache base).1.length ≤ alruMaxsize)
    ∧ (∀ j, (getOpenidConfigCached fetch cache base).2.2 = .ok j →
        getOpenidConfigCached fetch (getOpenidConfigCached fetch cache base).1 base =
          (alistRemove (getOpenidConfigCached fetch cache base).1 base ++ [(base, j)],
            [], .ok j)) := by
  have hstored : ∀ j, alistGet cache base = none →
      alistGet (let stored := cache ++ [(base, j)]
        if alruMaxsize < stored.length then stored.drop 1 else stored) base = some j := by
    intro j hbase
    by_cases hlen : alruMaxsize < (cache ++ [(base, j)]).length
    · simp only [if_pos hlen]
      cases cache with
      | nil => simp [alruMaxsize] at hlen
      | cons p t =>
        have ht : alistGet t base = none := alistGet_tail_of_none p t base hbase
        simpa using alistGet_append_singleton t base j ht
    · simp only [if_neg hlen]
      exact alistGet_append_singleton cache base j hbase
  refine ⟨?_, ?_, ?_, ?_, ?_⟩
  · intro j hj
    simp [getOpenidConfigCached, hj]
  · intro hbase
    cases hcore : (getOpenidConfigCore fetch base).2 with
    | error e => simp [getOpenidConfigCached, hbase, hcore]
    | ok j0 => simp [getOpenidConfigCached, hbase, hcore]
  · intro j hj
    cases hbase : alistGet cache base with
    | some j0 =>
      have h1 : getOpenidConfigCached fetch cache base =
          (alistRemove cache base ++ [(base, j0)], [], .ok j0) := by
        simp [getOpenidConfigCached, hbase]
      rw [h1] at hj ⊢
      simp only at hj
      cases hj
      exact alistGet_append_singleton _ base _ (alistGet_alistRemove_self cache base hnd)
    | none =>
      cases hcore : (getOpenidConfigCore fetch base).2 with
      | error e =>
        have h1 : (getOpenidConfigCached fetch cache base).2.2 = .error e := by
          simp [getOpenidConfigCached, hbase, hcore]
        rw [h1] at hj
        exact Except.noConfusion hj
      | ok j0 =>
        have h1 : (getOpenidConfigCached fetch cache base).2.2 = .ok j0 := by
          simp [getOpenidConfigCached, hbase, hcore]
        rw [h1] at hj
        cases hj
        have h2 : (getOpenidConfigCached fetch cache base).1 =
            (let stored := cache ++ [(base, j)]
              if alruMaxsize < stored.length then stored.drop 1 else stored) := by
          simp [getOpenidConfigCached, hbase, hcore]
        rw [h2]
        exact hstored j hbase
  · intro hlen
    cases hbase : alistGet cache base with
    | some j0 =>
      have h1 : (getOpenidConfigCached fetch cache base).1 =
          alistRemove cache base ++ [(base, j0)] := by
        simp [getOpenidConfigCached, hbase]
      rw [h1]
      have := alistRemove_length cache base j0 hbase
      simp only [List.length_append, List.length_singleton]
      omega
    | none =>
      cases hcore : (getOpenidConfigCore fetch base).2 with
      | error e =>
        have h1 : (getOpenidConfigCached fetch cache base).1 = cache := by
          simp [getOpenidConfigCached, hbase, hcore]
        rw [h1]; exact hlen
      | ok j0 =>
        have h1 : (getOpenidConfigCached fetch cache base).1 =
            (if alruMaxsize < (cache ++ [(base, j0)]).length then
              (cache ++ [(base, j0)]).drop 1 else cache ++ [(base, j0)]) := by
          simp [getOpenidConfigCached, hbase, hcore]
        rw [h1]
        by_cases h2 : alruMaxsize < (cache ++ [(base, j0)]).length
        · rw [if_pos h2]
          simp only [List.length_drop, List.length_append, List.length_singleton]
          omega
        · rw [if_neg h2]
          simp only [List.length_append, List.length_singleton] at h2 ⊢
          omega
  · intro j hj
    have hget : alistGet (getOpenidConfigCached fetch cache base).1 base = some j := by
      cases hbase : alistGet cache base with
      | some j0 =>
        have h1 : getOpenidConfigCached fetch cache base =
            (alistRemove cache base ++ [(base, j0)], [], .ok j0) := by
          simp [getOpenidConfigCached, hbase]
        rw [h1] at hj ⊢
        simp only at hj
        cases hj
        exact alistGet_append_singleton _ base _ (alistGet_alistRemove_self cache base hnd)
      | none =>
        cases hcore : (getOpenidConfigCore fetch base).2 with
        | error e =>
          have h1 : (getOpenidConfigCached fetch cache base).2.2 = .error e := by
            simp [getOpenidConfigCached, hbase, hcore]
          rw [h1] at hj
          exact Except.noConfusion hj
        | ok j0 =>
          have h1 : (getOpenidConfigCached fetch cache base).2.2 = .ok j0 := by
            simp [getOpenidConfigCached, hbase, hcore]
          rw [h1] at hj
          cases hj
          have h2 : (getOpenidConfigCached fetch cache base).1 =
              (let stored := cache ++ [(base, j)]
                if alruMaxsize < stored.length then stored.drop 1 else stored) := by
            simp [getOpenidConfigCached, hbase, hcore]
          rw [h2]
          exact hstored j hbase
    exact getOpenidConfigCached_hit fetch _ base j hget

/-- A one-entry cache with distinct keys for the C10 witness. -/
def cacheWitness : List (String × List (String × String)) :=
  [("https://other.example", [("token_endpoint", "https://other.example/token")])]

/-- A GET oracle for the C10 counterexample: every URL answers 200 with a
well-formed discovery document. -/
def fetchDoc : String → FetchOutcome := fun _ =>
  .resp ⟨200, some [("authorization_endpoint", "https://idp.example/authorize"),
                    ("token_endpoint", "https://idp.example/token")]⟩

/-- C10 counterexample: two inputs that normalize (trailing-slash strip)
to the same issuer base URI are cached under distinct keys, and resolving
the second after the first still performs an underlying fetch — two
fetches for one normalized key. -/
theorem openid_config_cache_raw_key_cex :
    dropTrailingSlash "https://idp.example/fhir/" = dropTrailingSlash "https://idp.example/fhir"
    ∧ (getOpenidConfigCached fetchDoc [] "https://idp.example/fhir").2.1 =
      ["https://idp.example/fhir/.well-known/openid-configuration"]
    ∧ (getOpenidConfigCached fetchDoc
        (getOpenidConfigCached fetchDoc [] "https://idp.example/fhir").1
        "https://idp.example/fhir/").2.1 =
      ["https://idp.example/fhir/.well-known/openid-configuration"] := by decide

/-- Witness for C10 at a concrete cache (one entry, distinct keys), fetch
oracle and key. -/
theorem openid_config_cache_behavior_witness :
    (∀ j, alistGet cacheWitness "https://idp.example/fhir" = some j →
      getOpenidConfigCached fetchDoc cacheWitness "https://idp.example/fhir" =
        (alistRemove cacheWitness "https://idp.example/fhir"
          ++ [("https://idp.example/fhir", j)], [], .ok j))
    ∧ (alistGet cacheWitness "https://idp.example/fhir" = none →
        (getOpenidConfigCached fetchDoc cacheWitness "https://idp.example/fhir").2.1 =
          (getOpenidConfigCore fetchDoc "https://idp.example/fhir").1
        ∧ (getOpenidConfigCached fetchDoc cacheWitness "https://idp.example/fhir").2.2 =
          (getOpenidConfigCore fetchDoc "https://idp.example/fhir").2)
    ∧ (∀ j, (getOpenidConfigCached fetchDoc cacheWitness "https://idp.example/fhir").2.2 = .ok j →
        alistGet (getOpenidConfigCached fetchDoc cacheWitness "https://idp.example/fhir").1
          "https://idp.example/fhir" = some j)
    ∧ (cacheWitness.length ≤ alruMaxsize →
        (getOpenidConfigCached fetchDoc cacheWitness
          "https://idp.example/fhir").1.length ≤ alruMaxsize)
    ∧ (∀ j, (getOpenidConfigCached fetchDoc cacheWitness "https://idp.example/fhir").2.2 = .ok j →
        getOpenidConfigCached fetchDoc
          (getOpenidConfigCached fetchDoc cacheWitness "https://idp.example/fhir").1
          "https://idp.example/fhir" =
          (alistRemove (getOpenidConfigCached fetchDoc cacheWitness
              "https://idp.example/fhir").1 "https://idp.example/fhir"
            ++ [("https://idp.example/fhir", j)], [], .ok j)) :=
  openid_config_cache_behavior fetchDoc cacheWitness "https://idp.example/fhir" (by decide)

/-! ## Token callback (`_openid_token_callback` in `oauth.py` and `app.py`). -/

/-- The two discovery-document fields this code reads
(`openid_config["authorization_endpoint"]`, `["token_endpoint"]`). -/
structure OpenidConfig where
  authorization_endpoint : String
  token_endpoint : String
deriving DecidableEq, Repr

/-- An outbound POST: target URL and form body. -/
structure TokenRequest where
  url : String
  form : List (String × String)
deriving DecidableEq, Repr

/-- The form body of the authorization-code token request: the literal
dict from the source, updated with `extra_params`. -/
def tokenRequestParams (client_id code code_verifier : String)
    (extra_params : List (String × String)) : List (String × String) :=
  dictUpdate
    [("code", code), ("grant_type", "authorization_code"),
     ("client_id", client_id), ("code_verifier", code_verifier)]
    extra_params

/-- `_openid_token_callback`: the discovery result is the already-resolved
`configR` (the code awaits `_get_openid_config` first, so a discovery
failure propagates before any input check); then the input checks run in
source order; only past all of them is the token POST issued.  Returns the
POST that was sent, if any, and the result. -/
def _openid_token_callback (configR : Except PyErr OpenidConfig)
    (post : String → List (String × String) → HttpResponse)
    (client_id code error error_description state check_state code_verifier : String)
    (extra_params : List (String × String)) :
    Option TokenRequest × Except PyErr (List (String × String)) :=
  match configR with
  | .error e => (none, .error e)
  | .ok openid_config =>
    let token_url := openid_config.token_endpoint
    if error ≠ "" then (none, .error (.httpEx 500 error_description))
    else if code = "" then (none, .error (.httpEx 400 "Missing code= parameter"))
    else if state = "" then (none, .error (.httpEx 400 "OAuth state missing"))
    else if state ≠ check_state then (none, .error (.httpEx 400 "OAuth state doesn't match"))
    else
      let params := tokenRequestParams client_id code code_verifier extra_params
      let r := post token_url params
      (some ⟨token_url, params⟩,
        if 400 ≤ r.status then
          match r.body with
          | none => .error .jsonDecodeErr
          | some _ => .error (.httpStatusErr r.status)
        else jsonOf r)

/-- The callback validation cascade as the spec words it (§4.4): provider
error first, then missing code, then missing state, then state mismatch;
`none` means all checks passed. -/
def specCallbackValidation (error error_description code state check_state : String) :
    Option PyErr :=
  if error ≠ "" then some (.httpEx 500 error_description)
  else if code = "" then some (.httpEx 400 "Missing code= parameter")
  else if state = "" then some (.httpEx 400 "OAuth state missing")
  else if state ≠ check_state then some (.httpEx 400 "OAuth state doesn't match")
  else none

theorem openid_token_callback_eq (configR : Except PyErr OpenidConfig)
    (post : String → List (String × String) → HttpResponse)
    (client_id code error error_description state check_state code_verifier : String)
    (extra_params : List (String × String)) :
    _openid_token_callback configR post client_id code error error_description state
        check_state code_verifier extra_params =
      match configR with
      | .error e => (none, .error e)
      | .ok cfg =>
        match specCallbackValidation error error_description code state check_state with
        | some e => (none, .error e)
        | none =>
          (some ⟨cfg.token_endpoint, tokenRequestParams client_id code code_verifier extra_params⟩,
            let r := post cfg.token_endpoint
              (tokenRequestParams client_id code code_verifier extra_params)
            if 400 ≤ r.status then
              match r.body with
              | none => .error .jsonDecodeErr
              | some _ => .error (.httpStatusErr r.status)
            else jsonOf r) := by
  cases configR with
  | error e => rfl
  | ok cfg =>
    by_cases herr : error = ""
    · by_cases hcode : code = ""
      · simp [_openid_token_callback, specCallbackValidation, herr, hcode]
      · by_cases hstate : state = ""
        · simp [_openid_token_callback, specCallbackValidation, herr, hcode, hstate]
        · by_cases hchk : state = check_state
          · subst hchk
            simp [_openid_token_callback, specCallbackValidation, herr, hcode, hstate]
          · simp [_openid_token_callback, specCallbackValidation, herr, hcode, hstate, hchk]
    · simp [_openid_token_callback, specCallbackValidation, herr]

/-- C2: with the discovery document resolved, `_openid_token_callback`
validates its inputs in source order with distinct failures — non-empty
`error` fails as a 500 carrying `error_description` with no further
checks, then empty `code`, empty `state`, and `state ≠ check_state` each
fail as distinct 400s — and only when every check passes is the token POST
performed. -/
theorem openid_token_callback_validation_order (cfg : OpenidConfig)
    (post : String → List (String × String) → HttpResponse)
    (client_id code error error_description state check_state code_verifier : String)
    (extra_params : List (String × String)) :
    _openid_token_callback (.ok cfg) post client_id code error error_description state
        check_state code_verifier extra_params =
      match specCallbackValidation error error_description code state check_state with
      | some e => (none, .error e)
      | none =>
        (some ⟨cfg.token_endpoint, tokenRequestParams client_id code code_verifier extra_params⟩,
          let r := post cfg.token_endpoint
            (tokenRequestParams client_id code code_verifier extra_params)
          if 400 ≤ r.status then
            match r.body with
            | none => .error .jsonDecodeErr
            | some _ => .error (.httpStatusErr r.status)
          else jsonOf r) :=
  openid_token_callback_eq (.ok cfg) post client_id code error error_description state
    check_state code_verifier extra_params

/-! ## `app.py` session store and callback handlers. -/

/-- `SessionState` from `app.py`: one session's credentials for both the
SMART-on-FHIR launch and the JupyterHealth Exchange endpoint.  The token
response dict `fhir_context` is modelled at its string fields. -/
structure SessionState where
  fhir_token : String := ""
  fhir_api : String := ""
  fhir_oauth_state : String := ""
  fhir_code_verifier : String := ""
  fhir_launch : String := ""
  fhir_context : List (String × String) := []
  jhe_token : String := ""
  jhe_oauth_state : String := ""
  jhe_code_verifier : String := ""
deriving DecidableEq, Repr

/-- The session-id resolution inside `_get_session` of `app.py` (lines
134-139): the guarded cookie read is dead code — the following
unconditional assignment overwrites `session_id` with the constant
`"session_id"` for every request. -/
def _resolve_session_id (session : List (String × String)) : String :=
  match alistGet session "session_id" with
  | _ => "session_id"

/-- `_get_session` from `app.py`.  State passed and returned explicitly:
the process-wide `_sessions` dict and the cookie-backed `session` dict.
An existing record at the resolved key is returned as-is (also when
`make_new` is true); otherwise `make_new` allocates and registers an empty
record. -/
def _get_session (sessions : List (String × SessionState))
    (session : List (String × String)) (make_new : Bool) :
    Option SessionState × List (String × SessionState) × List (String × String) :=
  let session_id := _resolve_session_id session
  match alistGet sessions session_id with
  | some session_state => (some session_state, sessions, session)
  | none =>
    if make_new then
      (some {}, alistSet sessions session_id {}, alistSet session "session_id" session_id)
    else (none, sessions, session)

theorem get_session_read (sessions : List (String × SessionState))
    (cookie : List (String × String)) :
    _get_session sessions cookie false = (alistGet sessions "session_id", sessions, cookie) := by
  cases h : alistGet sessions "session_id" <;>
    simp [_get_session, _resolve_session_id, h]

/-- The outbound POSTs a handler can make. -/
inductive Effect where
  /-- The authorization-code token POST inside `_openid_token_callback`. -/
  | tokenPost (url : String) (form : List (String × String))
  /-- The RFC 8693 token-exchange POST of `jhe.exchange_token`. -/
  | exchangePost (url : String) (form : List (String × String))
deriving DecidableEq, Repr

def Effect.isExchange : Effect → Bool
  | .exchangePost _ _ => true
  | _ => false

/-- What a handler returns to the framework. -/
inductive HandlerResult where
  /-- `RedirectResponse(url)`. -/
  | redirect (url : String)
  /-- An uncaught exception / `HTTPException`. -/
  | failure (e : PyErr)
deriving DecidableEq, Repr

/-- `fhir_callback` (`GET /callback`) from `app.py`.  `configR` is the
discovery result for `session.fhir_api`; `post` the token-endpoint POST
oracle.  Python mutates the session object in place; here each mutation
writes the record back at the resolved key.  Returns the updated
`_sessions` map, the POSTs made, and the response. -/
def fhir_callback (configR : Except PyErr OpenidConfig)
    (post : String → List (String × String) → HttpResponse)
    (fhir_client_id fhir_redirect_uri : String)
    (sessions : List (String × SessionState)) (cookie : List (String × String))
    (code error error_description state : String) :
    List (String × SessionState) × List Effect × HandlerResult :=
  match (_get_session sessions cookie false).1 with
  | none => (sessions, [], .failure (.httpEx 400 "no session, start again."))
  | some session =>
    let check_state := session.fhir_oauth_state
    let code_verifier := session.fhir_code_verifier
    let cleared := { session with fhir_oauth_state := "", fhir_code_verifier := "" }
    let sessions1 := alistSet sessions "session_id" cleared
    let cb := _openid_token_callback configR post fhir_client_id code error
      error_description state check_state code_verifier
      [("redirect_uri", fhir_redirect_uri), ("state", state)]
    let trace := match cb.1 with
      | some rq => [Effect.tokenPost rq.url rq.form]
      | none => []
    match cb.2 with
    | .error e => (sessions1, trace, .failure e)
    | .ok token_response =>
      let withCtx := { cleared with fhir_context := token_response }
      match alistGet token_response "access_token" with
      | none => (alistSet sessions1 "session_id" withCtx, trace, .failure (.keyErr "access_token"))
      | some tok =>
        (alistSet sessions1 "session_id" { withCtx with fhir_token := tok }, trace,
          .redirect "/")

/-- `jhe_callback` (`GET /jhe_callback`) from `app.py`.  The
`jhe.get_user()` read after authentication succeeds is elided: it does not
modify the session.  The `assert jhe is not None` fails exactly when the
stored token is empty (`get_jhe` returns `None` for a falsy token). -/
def jhe_callback (configR : Except PyErr OpenidConfig)
    (post : String → List (String × String) → HttpResponse)
    (jhe_client_id : String)
    (sessions : List (String × SessionState)) (cookie : List (String × String))
    (code error error_description state : String) :
    List (String × SessionState) × List Effect × HandlerResult :=
  match (_get_session sessions cookie false).1 with
  | none => (sessions, [], .failure (.httpEx 400 "No session, login again"))
  | some session =>
    let check_state := session.jhe_oauth_state
    let code_verifier := session.jhe_code_verifier
    let cleared := { session with jhe_oauth_state := "", jhe_code_verifier := "" }
    let sessions1 := alistSet sessions "session_id" cleared
    let cb := _openid_token_callback configR post jhe_client_id code error
      error_description state check_state code_verifier []
    let trace := match cb.1 with
      | some rq => [Effect.tokenPost rq.url rq.form]
      | none => []
    match cb.2 with
    | .error e => (sessions1, trace, .failure e)
    | .ok token_response =>
      match alistGet token_response "access_token" with
      | none => (sessions1, trace, .failure (.keyErr "access_token"))
      | some tok =>
        let updated := { cleared with jhe_token := tok }
        let sessions2 := alistSet sessions1 "session_id" updated
        if tok = "" then (sessions2, trace, .failure .assertionErr)
        else (sessions2, trace, .redirect "/")

theorem specCallbackValidation_eq_none (error error_description code state check_state : String)
    (h : specCallbackValidation error error_description code state check_state = none) :
    error = "" ∧ code ≠ "" ∧ state ≠ "" ∧ state = check_state := by
  unfold specCallbackValidation at h
  by_cases herr : error = ""
  · by_cases hcode : code = ""
    · simp [herr, hcode] at h
    · by_cases hstate : state = ""
      · simp [herr, hcode, hstate] at h
      · by_cases hchk : state = check_state
        · exact ⟨herr, hcode, hstate, hchk⟩
        · simp [herr, hcode, hstate, hchk] at h
  · simp [herr] at h

theorem token_callback_ok_facts (configR : Except PyErr OpenidConfig)
    (post : String → List (String × String) → HttpResponse)
    (client_id code error error_description state check_state code_verifier : String)
    (extra_params : List (String × String)) (j : List (String × String))
    (h : (_openid_token_callback configR post client_id code error error_description
      state check_state code_verifier extra_params).2 = .ok j) :
    (∃ cfg, configR = .ok cfg) ∧ error = "" ∧ code ≠ "" ∧ state ≠ "" ∧ state = check_state := by
  cases configR with
  | error e => simp [_openid_token_callback] at h
  | ok cfg =>
    refine ⟨⟨cfg, rfl⟩, ?_⟩
    by_cases herr : error = ""
    · by_cases hcode : code = ""
      · simp [_openid_token_callback, herr, hcode] at h
      · by_cases hstate : state = ""
        · simp [_openid_token_callback, herr, hcode, hstate] at h
        · by_cases hchk : state = check_state
          · exact ⟨herr, hcode, hstate, hchk⟩
          · simp [_openid_token_callback, herr, hcode, hstate, hchk] at h
    · simp [_openid_token_callback, herr] at h

theorem token_callback_replay_mismatch (cfg : OpenidConfig)
    (post : String → List (String × String) → HttpResponse)
    (client_id code error error_description state code_verifier : String)
    (extra_params : List (String × String))
    (herr : error = "") (hcode : code ≠ "") (hstate : state ≠ "") :
    (_openid_token_callback (.ok cfg) post client_id code error error_description
      state "" code_verifier extra_params).2 =
      .error (.httpEx 400 "OAuth state doesn't match") := by
  simp [_openid_token_callback, herr, hcode, hstate]

theorem fhir_callback_clears (configR : Except PyErr OpenidConfig)
    (post : String → List (String × String) → HttpResponse)
    (client_id redirect_uri : String)
    (sessions : List (String × SessionState)) (cookie : List (String × String))
    (code error error_description state : String)
    (h : (alistGet sessions "session_id").isSome) :
    ∃ s2, alistGet (fhir_callback configR post client_id redirect_uri sessions cookie
        code error error_description state).1 "session_id" = some s2
      ∧ s2.fhir_oauth_state = "" ∧ s2.fhir_code_verifier = "" := by
  obtain ⟨s, hs⟩ := Option.isSome_iff_exists.mp h
  cases hcb : (_openid_token_callback configR post client_id code error error_description
      state s.fhir_oauth_state s.fhir_code_verifier
      [("redirect_uri", redirect_uri), ("state", state)]).2 with
  | error e =>
    refine ⟨{ s with fhir_oauth_state := "", fhir_code_verifier := "" }, ?_, rfl, rfl⟩
    simp [fhir_callback, get_session_read, hs, hcb, alistGet_alistSet_self]
  | ok j =>
    cases hak : alistGet j "access_token" with
    | none =>
      refine ⟨{ s with fhir_oauth_state := "", fhir_code_verifier := "", fhir_context := j }, ?_, rfl, rfl⟩
      simp [fhir_callback, get_session_read, hs, hcb, hak, alistGet_alistSet_self]
    | some tok =>
      refine ⟨{ s with fhir_oauth_state := "", fhir_code_verifier := "", fhir_context := j, fhir_token := tok }, ?_, rfl, rfl⟩
      simp [fhir_callback, get_session_read, hs, hcb, hak, alistGet_alistSet_self]

theorem fhir_callback_replay (configR : Except PyErr OpenidConfig)
    (post : String → List (String × String) → HttpResponse)
    (client_id redirect_uri : String)
    (sessions : List (String × SessionState)) (cookie : List (String × String))
    (code error error_description state : String)
    (h : (fhir_callback configR post client_id redirect_uri sessions cookie
      code error error_description state).2.2 = .redirect "/") :
    (fhir_callback configR post client_id redirect_uri
      (fhir_callback configR post client_id redirect_uri sessions cookie
        code error error_description state).1
      cookie code error error_description state).2.2 =
      .failure (.httpEx 400 "OAuth state doesn't match") := by
  cases hs : alistGet sessions "session_id" with
  | none => simp [fhir_callback, get_session_read, hs] at h
  | some s =>
    cases hcb : (_openid_token_callback configR post client_id code error error_description
        state s.fhir_oauth_state s.fhir_code_verifier
        [("redirect_uri", redirect_uri), ("state", state)]).2 with
    | error e => simp [fhir_callback, get_session_read, hs, hcb] at h
    | ok j =>
      cases hak : alistGet j "access_token" with
      | none => simp [fhir_callback, get_session_read, hs, hcb, hak] at h
      | some tok =>
        obtain ⟨⟨cfg, hcfg⟩, herr, hcode, hstate, hchk⟩ :=
          token_callback_ok_facts _ _ _ _ _ _ _ _ _ _ _ hcb
        have hmap : (fhir_callback configR post client_id redirect_uri sessions cookie
            code error error_description state).1 =
            alistSet (alistSet sessions "session_id" { s with fhir_oauth_state := "", fhir_code_verifier := "" }) "session_id" { s with fhir_oauth_state := "", fhir_code_verifier := "", fhir_context := j, fhir_token := tok } := by
          simp [fhir_callback, get_session_read, hs, hcb, hak]
        rw [hmap]
        have hlook := alistGet_alistSet_self (alistSet sessions "session_id" { s with fhir_oauth_state := "", fhir_code_verifier := "" }) "session_id" { s with fhir_oauth_state := "", fhir_code_verifier := "", fhir_context := j, fhir_token := tok }
        subst hcfg
        simp [fhir_callback, get_session_read, hlook,
          token_callback_replay_mismatch cfg post client_id code error error_description
            state "" [("redirect_uri", redirect_uri), ("state", state)] herr hcode hstate]

theorem jhe_callback_clears (configR : Except PyErr OpenidConfig)
    (post : String → List (String × String) → HttpResponse)
    (client_id : String)
    (sessions : List (String × SessionState)) (cookie : List (String × String))
    (code error error_description state : String)
    (h : (alistGet sessions "session_id").isSome) :
    ∃ s2, alistGet (jhe_callback configR post client_id sessions cookie
        code error error_description state).1 "session_id" = some s2
      ∧ s2.jhe_oauth_state = "" ∧ s2.jhe_code_verifier = "" := by
  obtain ⟨s, hs⟩ := Option.isSome_iff_exists.mp h
  cases hcb : (_openid_token_callback configR post client_id code error error_description
      state s.jhe_oauth_state s.jhe_code_verifier []).2 with
  | error e =>
    refine ⟨{ s with jhe_oauth_state := "", jhe_code_verifier := "" }, ?_, rfl, rfl⟩
    simp [jhe_callback, get_session_read, hs, hcb, alistGet_alistSet_self]
  | ok j =>
    cases hak : alistGet j "access_token" with
    | none =>
      refine ⟨{ s with jhe_oauth_state := "", jhe_code_verifier := "" }, ?_, rfl, rfl⟩
      simp [jhe_callback, get_session_read, hs, hcb, hak, alistGet_alistSet_self]
    | some tok =>
      refine ⟨{ s with jhe_oauth_state := "", jhe_code_verifier := "", jhe_token := tok }, ?_, rfl, rfl⟩
      by_cases htok : tok = "" <;>
        simp [jhe_callback, get_session_read, hs, hcb, hak, htok, alistGet_alistSet_self]

theorem jhe_callback_replay (configR : Except PyErr OpenidConfig)
    (post : String → List (String × String) → HttpResponse)
    (client_id : String)
    (sessions : List (String × SessionState)) (cookie : List (String × String))
    (code error error_description state : String)
    (h : (jhe_callback configR post client_id sessions cookie
      code error error_description state).2.2 = .redirect "/") :
    (jhe_callback configR post client_id
      (jhe_callback configR post client_id sessions cookie
        code error error_description state).1
      cookie code error error_description state).2.2 =
      .failure (.httpEx 400 "OAuth state doesn't match") := by
  cases hs : alistGet sessions "session_id" with
  | none => simp [jhe_callback, get_session_read, hs] at h
  | some s =>
    cases hcb : (_openid_token_callback configR post client_id code error error_description
        state s.jhe_oauth_state s.jhe_code_verifier []).2 with
    | error e => simp [jhe_callback, get_session_read, hs, hcb] at h
    | ok j =>
      cases hak : alistGet j "access_token" with
      | none => simp [jhe_callback, get_session_read, hs, hcb, hak] at h
      | some tok =>
        by_cases htok : tok = ""
        · simp [jhe_callback, get_session_read, hs, hcb, hak, htok] at h
        · obtain ⟨⟨cfg, hcfg⟩, herr, hcode, hstate, hchk⟩ :=
            token_callback_ok_facts _ _ _ _ _ _ _ _ _ _ _ hcb
          have hmap : (jhe_callback configR post client_id sessions cookie
              code error error_description state).1 =
              alistSet (alistSet sessions "session_id" { s with jhe_oauth_state := "", jhe_code_verifier := "" }) "session_id" { s with jhe_oauth_state := "", jhe_code_verifier := "", jhe_token := tok } := by
            simp [jhe_callback, get_session_read, hs, hcb, hak, htok]
          rw [hmap]
          have hlook := alistGet_alistSet_self (alistSet sessions "session_id" { s with jhe_oauth_state := "", jhe_code_verifier := "" }) "session_id" { s with jhe_oauth_state := "", jhe_code_verifier := "", jhe_token := tok }
          subst hcfg
          simp [jhe_callback, get_session_read, hlook,
            token_callback_replay_mismatch cfg post client_id code error error_description
              state "" [] herr hcode hstate]

/-- C1: the pending OAuth state and code verifier are one-shot.  Whenever
a session exists, `fhir_callback` leaves it with `fhir_oauth_state` and
`fhir_code_verifier` cleared — whatever the validation or token exchange
returned — and replaying a request that just succeeded fails with the
state-mismatch 400; likewise `jhe_callback` for the `jhe_` pending pair. -/
theorem callback_pending_state_one_shot (configR : Except PyErr OpenidConfig)
    (post : String → List (String × String) → HttpResponse)
    (fhir_client_id fhir_redirect_uri jhe_client_id : String)
    (sessions : List (String × SessionState)) (cookie : List (String × String))
    (code error error_description state : String) :
    ((alistGet sessions "session_id").isSome →
      ∃ s2, alistGet (fhir_callback configR post fhir_client_id fhir_redirect_uri
          sessions cookie code error error_description state).1 "session_id" = some s2
        ∧ s2.fhir_oauth_state = "" ∧ s2.fhir_code_verifier = "")
    ∧ ((fhir_callback configR post fhir_client_id fhir_redirect_uri sessions cookie
        code error error_description state).2.2 = .redirect "/" →
      (fhir_callback configR post fhir_client_id fhir_redirect_uri
        (fhir_callback configR post fhir_client_id fhir_redirect_uri sessions cookie
          code error error_description state).1
        cookie code error error_description state).2.2 =
        .failure (.httpEx 400 "OAuth state doesn't match"))
    ∧ ((alistGet sessions "session_id").isSome →
      ∃ s2, alistGet (jhe_callback configR post jhe_client_id sessions cookie
          code error error_description state).1 "session_id" = some s2
        ∧ s2.jhe_oauth_state = "" ∧ s2.jhe_code_verifier = "")
    ∧ ((jhe_callback configR post jhe_client_id sessions cookie
        code error error_description state).2.2 = .redirect "/" →
      (jhe_callback configR post jhe_client_id
        (jhe_callback configR post jhe_client_id sessions cookie
          code error error_description state).1
        cookie code error error_description state).2.2 =
        .failure (.httpEx 400 "OAuth state doesn't match")) :=
  ⟨fun h => fhir_callback_clears configR post fhir_client_id fhir_redirect_uri sessions
      cookie code error error_description state h,
   fun h => fhir_callback_replay configR post fhir_client_id fhir_redirect_uri sessions
      cookie code error error_description state h,
   fun h => jhe_callback_clears configR post jhe_client_id sessions
      cookie code error error_description state h,
   fun h => jhe_callback_replay configR post jhe_client_id sessions
      cookie code error error_description state h⟩

/-! ## `jhe.py`: RFC 8693 token exchange. -/

/-- `exchange_token` from `src/chart-app/app/jhe.py`: POST the RFC 8693
form to `{jhe_url}/o/token-exchange`; `r.raise_for_status()` when the
status is 400 or above (after a `print(r.json())` that raises first on a
malformed error body); on success return only the `access_token` field of
the response JSON.  Returns the request as built and the result. -/
def exchange_token (jhe_url access_token iss : String) (resp : HttpResponse) :
    TokenRequest × Except PyErr String :=
  let req : TokenRequest :=
    ⟨jhe_url ++ "/o/token-exchange",
     [("subject_token", access_token), ("iss", iss), ("audience", jhe_url),
      ("subject_token_type", "urn:ietf:params:oauth:token-type:access_token"),
      ("requested_token_type", "urn:ietf:params:oauth:token-type:access_token"),
      ("grant_type", "urn:ietf:params:oauth:grant-type:token-exchange")]⟩
  let result : Except PyErr String :=
    if 400 ≤ resp.status then
      match resp.body with
      | none => .error .jsonDecodeErr
      | some _ => .error (.httpStatusErr resp.status)
    else
      match resp.body with
      | none => .error .jsonDecodeErr
      | some token_info =>
        match alistGet token_info "access_token" with
        | none => .error (.keyErr "access_token")
        | some tok => .ok tok
  (req, result)

/-- C4: the token-exchange POST goes to `{jhe_url}/o/token-exchange` with
the RFC 8693 grant-type URN, the given subject token, the access-token URN
as both subject and requested token type, `audience = jhe_url` and
`iss = iss`; a status of 400 or above yields an error; on success exactly
the `access_token` field of the response is returned. -/
theorem exchange_token_spec (jhe_url access_token iss : String) (resp : HttpResponse) :
    (exchange_token jhe_url access_token iss resp).1.url = jhe_url ++ "/o/token-exchange"
    ∧ alistGet (exchange_token jhe_url access_token iss resp).1.form "grant_type" =
      some "urn:ietf:params:oauth:grant-type:token-exchange"
    ∧ alistGet (exchange_token jhe_url access_token iss resp).1.form "subject_token" =
      some access_token
    ∧ alistGet (exchange_token jhe_url access_token iss resp).1.form "subject_token_type" =
      some "urn:ietf:params:oauth:token-type:access_token"
    ∧ alistGet (exchange_token jhe_url access_token iss resp).1.form "requested_token_type" =
      some "urn:ietf:params:oauth:token-type:access_token"
    ∧ alistGet (exchange_token jhe_url access_token iss resp).1.form "audience" = some jhe_url
    ∧ alistGet (exchange_token jhe_url access_token iss resp).1.form "iss" = some iss
    ∧ (400 ≤ resp.status → ∃ e, (exchange_token jhe_url access_token iss resp).2 = .error e)
    ∧ (∀ token_info tok, resp.status < 400 → resp.body = some token_info →
        alistGet token_info "access_token" = some tok →
        (exchange_token jhe_url access_token iss resp).2 = .ok tok) := by
  refine ⟨rfl, rfl, rfl, rfl, rfl, rfl, rfl, ?_, ?_⟩
  · intro h
    simp only [exchange_token, if_pos h]
    cases resp.body <;> exact ⟨_, rfl⟩
  · intro token_info tok h1 h2 h3
    simp [exchange_token, h2, h3, show ¬ 400 ≤ resp.status by omega]

/-- C6 counterexample: with a record already stored under the fixed key,
`_get_session` in `app.py` called with `make_new = true` returns the stale
record unchanged — tokens and pending state from the earlier flow
included — and stores nothing fresh. -/
def staleSession : SessionState :=
  { fhir_token := "old-token", fhir_oauth_state := "old-state",
    fhir_code_verifier := "old-verifier", jhe_token := "old-jhe" }

theorem get_session_make_new_reuses_cex :
    (_get_session [("session_id", staleSession)] [] true).1 = some staleSession
    ∧ (_get_session [("session_id", staleSession)] [] true).2.1 = [("session_id", staleSession)]
    ∧ staleSession.fhir_token = "old-token"
    ∧ staleSession.fhir_oauth_state = "old-state" := by decide

/-- C8: in `app.py` the session identifier resolves to the constant
`"session_id"` for every cookie dict; the `_sessions` map therefore only
ever gains that one key, the returned record is the one stored under it,
and two requests with different cookies read and write the same record. -/
theorem app_session_store_single_key (sessions : List (String × SessionState))
    (cookie cookie2 : List (String × String)) (make_new : Bool) :
    _resolve_session_id cookie = "session_id"
    ∧ ((_get_session sessions cookie make_new).2.1 = sessions ∨
        (_get_session sessions cookie make_new).2.1 = alistSet sessions "session_id" {})
    ∧ (_get_session sessions cookie make_new).1 =
        alistGet (_get_session sessions cookie make_new).2.1 "session_id"
    ∧ (_get_session sessions cookie make_new).1 = (_get_session sessions cookie2 make_new).1
    ∧ (_get_session sessions cookie make_new).2.1 = (_get_session sessions cookie2 make_new).2.1 := by
  refine ⟨rfl, ?_, ?_, ?_, ?_⟩
  · cases h : alistGet sessions "session_id" with
    | some s => simp [_get_session, _resolve_session_id, h]
    | none =>
      cases make_new <;> simp [_get_session, _resolve_session_id, h]
  · cases h : alistGet sessions "session_id" with
    | some s => simp [_get_session, _resolve_session_id, h]
    | none =>
      cases make_new <;> simp [_get_session, _resolve_session_id, h, alistGet_alistSet_self]
  · cases h : alistGet sessions "session_id" with
    | some s => simp [_get_session, _resolve_session_id, h]
    | none => cases make_new <;> simp [_get_session, _resolve_session_id, h]
  · cases h : alistGet sessions "session_id" with
    | some s => simp [_get_session, _resolve_session_id, h]
    | none => cases make_new <;> simp [_get_session, _resolve_session_id, h]

theorem token_callback_ok_request (configR : Except PyErr OpenidConfig)
    (post : String → List (String × String) → HttpResponse)
    (client_id code error error_description state check_state code_verifier : String)
    (extra_params : List (String × String)) (j : List (String × String))
    (h : (_openid_token_callback configR post client_id code error error_description
      state check_state code_verifier extra_params).2 = .ok j) :
    ∃ rq, (_openid_token_callback configR post client_id code error error_description
      state check_state code_verifier extra_params).1 = some rq := by
  cases configR with
  | error e => simp [_openid_token_callback] at h
  | ok cfg =>
    by_cases herr : error = ""
    · by_cases hcode : code = ""
      · simp [_openid_token_callback, herr, hcode] at h
      · by_cases hstate : state = ""
        · simp [_openid_token_callback, herr, hcode, hstate] at h
        · by_cases hchk : state = check_state
          · subst hchk
            refine ⟨⟨cfg.token_endpoint,
              tokenRequestParams client_id code code_verifier extra_params⟩, ?_⟩
            simp [_openid_token_callback, herr, hcode, hstate]
          · simp [_openid_token_callback, herr, hcode, hstate, hchk] at h
    · simp [_openid_token_callback, herr] at h

/-- C5 (amended): `fhir_callback` never performs an RFC 8693
token-exchange POST; when it succeeds it has performed the token POST,
stored the token response and its access token into the session, and
responds with a redirect to `/`. -/
theorem fhir_callback_success_behavior (configR : Except PyErr OpenidConfig)
    (post : String → List (String × String) → HttpResponse)
    (client_id redirect_uri : String)
    (sessions : List (String × SessionState)) (cookie : List (String × String))
    (code error error_description state : String) :
    (((fhir_callback configR post client_id redirect_uri sessions cookie
        code error error_description state).2.1).all (fun e => !e.isExchange) = true)
    ∧ ((fhir_callback configR post client_id redirect_uri sessions cookie
        code error error_description state).2.2 = .redirect "/" →
      ∃ s2, alistGet (fhir_callback configR post client_id redirect_uri sessions cookie
          code error error_description state).1 "session_id" = some s2
        ∧ alistGet s2.fhir_context "access_token" = some s2.fhir_token
        ∧ ∃ u f, (fhir_callback configR post client_id redirect_uri sessions cookie
            code error error_description state).2.1 = [Effect.tokenPost u f]) := by
  constructor
  · cases hs : alistGet sessions "session_id" with
    | none => simp [fhir_callback, get_session_read, hs]
    | some s =>
      rcases hcb : _openid_token_callback configR post client_id code error error_description
          state s.fhir_oauth_state s.fhir_code_verifier
          [("redirect_uri", redirect_uri), ("state", state)] with ⟨rq, res⟩
      cases res with
      | error e =>
        cases rq <;> simp [fhir_callback, get_session_read, hs, hcb, Effect.isExchange]
      | ok j =>
        cases hak : alistGet j "access_token" with
        | none =>
          cases rq <;>
            simp [fhir_callback, get_session_read, hs, hcb, hak, Effect.isExchange]
        | some tok =>
          cases rq <;>
            simp [fhir_callback, get_session_read, hs, hcb, hak, Effect.isExchange]
  · intro h
    cases hs : alistGet sessions "session_id" with
    | none => simp [fhir_callback, get_session_read, hs] at h
    | some s =>
      cases hcb : (_openid_token_callback configR post client_id code error error_description
          state s.fhir_oauth_state s.fhir_code_verifier
          [("redirect_uri", redirect_uri), ("state", state)]).2 with
      | error e => simp [fhir_callback, get_session_read, hs, hcb] at h
      | ok j =>
        obtain ⟨rq, hrq⟩ := token_callback_ok_request _ _ _ _ _ _ _ _ _ _ _ hcb
        cases hak : alistGet j "access_token" with
        | none => simp [fhir_callback, get_session_read, hs, hcb, hak] at h
        | some tok =>
          refine ⟨{ s with fhir_oauth_state := "", fhir_code_verifier := "", fhir_context := j, fhir_token := tok }, ?_, by simpa using hak, rq.url, rq.form, ?_⟩
          · simp [fhir_callback, get_session_read, hs, hcb, hak, alistGet_alistSet_self]
          · simp [fhir_callback, get_session_read, hs, hcb, hrq, hak]

/-- A concrete discovery document for the C5 counterexample. -/
def cfgDemo : OpenidConfig :=
  ⟨"https://idp.example/authorize", "https://idp.example/token"⟩

/-- A token endpoint answering every POST with a valid token response. -/
def postToken200 : String → List (String × String) → HttpResponse := fun _ _ =>
  ⟨200, some [("access_token", "tok1"), ("id_token", "idtok"), ("patient", "Patient-42")]⟩

/-- A session map with one pending FHIR flow. -/
def sessionsPending : List (String × SessionState) :=
  [("session_id",
    { fhir_api := "https://ehr.example/fhir", fhir_oauth_state := "state1",
      fhir_code_verifier := "verifier1" })]

/-- C5 counterexample: a successful `GET /callback` run whose outbound
traffic is exactly the one token POST — the token-exchange bridge
(`jhe.exchange_token`) is never invoked, contrary to the claim. -/
theorem fhir_callback_no_exchange_cex :
    (fhir_callback (.ok cfgDemo) postToken200 "client-id" "https://app.example/callback"
      sessionsPending [] "xyz" "" "" "state1").2.2 = .redirect "/"
    ∧ ((fhir_callback (.ok cfgDemo) postToken200 "client-id" "https://app.example/callback"
        sessionsPending [] "xyz" "" "" "state1").2.1).all (fun e => !e.isExchange) = true
    ∧ ((fhir_callback (.ok cfgDemo) postToken200 "client-id" "https://app.example/callback"
        sessionsPending [] "xyz" "" "" "state1").2.1).length = 1 := by decide

/-! ## `session.py` session store.  Its `SessionState` class is distinct
from the one in `app.py`; it is named `SessionPyState` here. -/

/-- The parts of the inbound request that `session.py` reads:
`request.query_params.get("iframe")`, `request.headers.get("sec-fetch-dest")`,
`request.headers["host"]` and the cookie-backed `request.session` dict. -/
structure PyRequest where
  query_iframe : Option String
  sec_fetch_dest : Option String
  host : String
  cookie : List (String × String)
deriving DecidableEq, Repr

/-- `SessionState` from `session.py`: the pending OAuth pair lives inside
the `requests_oauthlib.OAuth2Session` object, modelled by a presence
flag. -/
structure SessionPyState where
  fhir_token : String := ""
  has_fhir_oauth_session : Bool := false
  fhir_context : List (String × String) := []
  jhe_token : String := ""
deriving DecidableEq, Repr

/-- `SessionState._is_local_iframe` from `session.py`: a truthy `iframe`
query parameter returns true at once; otherwise the request must both
carry `sec-fetch-dest: iframe` and have `host.partition(":")[0]` in
`{localhost, 127.0.0.1}`. -/
def SessionPyState._is_local_iframe (request : PyRequest) : Bool :=
  if (request.query_iframe.getD "") ≠ "" then true
  else request.sec_fetch_dest == some "iframe"
    && (let hostname := String.mk (request.host.data.takeWhile (fun c => c != ':'))
        hostname == "localhost" || hostname == "127.0.0.1")

/-- The session-id resolution at the top of `SessionState.get_session`
(`session.py` lines 76-85): the fixed `"iframe"` identifier on an iframe
request, else the cookie-held identifier, else none. -/
def SessionPyState.resolve_session_id (request : PyRequest) : Option String :=
  if SessionPyState._is_local_iframe request then some "iframe"
  else alistGet request.cookie "session_id"

/-- `SessionState.get_session` from `session.py`.  `freshId` is the
`secrets.token_urlsafe(16)` draw used when a new non-iframe id is minted.
Returns the session, the updated `_sessions` map and the updated cookie
dict. -/
def SessionPyState.get_session (sessions : List (String × SessionPyState))
    (request : PyRequest) (make_new : Bool) (freshId : String) :
    Option SessionPyState × List (String × SessionPyState) × List (String × String) :=
  let session_id := SessionPyState.resolve_session_id request
  if make_new then
    let sid := if session_id ≠ some "iframe" then freshId else "iframe"
    let cookie2 := if session_id ≠ some "iframe" then
        alistSet request.cookie "session_id" freshId
      else request.cookie
    let s : SessionPyState := { has_fhir_oauth_session := true }
    (some s, alistSet sessions sid s, cookie2)
  else
    match session_id with
    | some sid => (alistGet sessions sid, sessions, request.cookie)
    | none => (none, sessions, request.cookie)

/-- C6 (amended): in `session.py`, `get_session` with `make_new` always
allocates a fresh record with no tokens and stores it at the resolved key,
overwriting any prior record there; in `app.py`, `_get_session` with
`make_new = true` returns an existing record unchanged, and only when no
record exists does it allocate and store a fresh empty one. -/
theorem session_store_make_new_behavior (sessions : List (String × SessionPyState))
    (request : PyRequest) (freshId : String)
    (appSessions : List (String × SessionState)) (cookie : List (String × String)) :
    (∃ s, (SessionPyState.get_session sessions request true freshId).1 = some s
      ∧ s.fhir_token = "" ∧ s.jhe_token = "" ∧ s.fhir_context = []
      ∧ alistGet (SessionPyState.get_session sessions request true freshId).2.1
          (if SessionPyState.resolve_session_id request ≠ some "iframe" then freshId
            else "iframe") = some s)
    ∧ (∀ s, alistGet appSessions "session_id" = some s →
        _get_session appSessions cookie true = (some s, appSessions, cookie))
    ∧ (alistGet appSessions "session_id" = none →
        _get_session appSessions cookie true =
          (some {}, alistSet appSessions "session_id" {},
            alistSet cookie "session_id" "session_id")) := by
  refine ⟨?_, ?_, ?_⟩
  · refine ⟨{ has_fhir_oauth_session := true }, ?_, rfl, rfl, rfl, ?_⟩
    · simp [SessionPyState.get_session]
    · by_cases hif : SessionPyState.resolve_session_id request ≠ some "iframe" <;>
        simp [SessionPyState.get_session, hif, alistGet_alistSet_self]
  · intro s hs
    simp [_get_session, _resolve_session_id, hs]
  · intro hnone
    simp [_get_session, _resolve_session_id, hnone]

/-- C7 (amended): `_is_local_iframe` holds exactly when the request
carries a truthy `iframe` query parameter, or carries both the
`sec-fetch-dest: iframe` header and a loopback host; `get_session`
resolves the fixed shared identifier `"iframe"` exactly on such requests
and otherwise uses the cookie-held per-visitor identifier. -/
theorem iframe_session_resolution (request : PyRequest) :
    (SessionPyState._is_local_iframe request = true ↔
      ((request.query_iframe.getD "") ≠ ""
        ∨ (request.sec_fetch_dest = some "iframe"
            ∧ (String.mk (request.host.data.takeWhile (fun c => c != ':')) = "localhost"
              ∨ String.mk (request.host.data.takeWhile (fun c => c != ':')) = "127.0.0.1"))))
    ∧ (SessionPyState._is_local_iframe request = true →
        SessionPyState.resolve_session_id request = some "iframe")
    ∧ (SessionPyState._is_local_iframe request = false →
        SessionPyState.resolve_session_id request = alistGet request.cookie "session_id") := by
  refine ⟨?_, ?_, ?_⟩
  · by_cases hq : (request.query_iframe.getD "") ≠ ""
    · simp [SessionPyState._is_local_iframe, hq]
    · simp only [SessionPyState._is_local_iframe, if_neg hq]
      simp [hq, Bool.and_eq_true, Bool.or_eq_true]
  · intro h
    simp [SessionPyState.resolve_session_id, h]
  · intro h
    simp [SessionPyState.resolve_session_id, h]

/-- A request with a truthy `iframe` query parameter but neither the
iframe header nor a loopback host. -/
def iframeQueryRequest : PyRequest :=
  { query_iframe := some "1", sec_fetch_dest := none,
    host := "app.example.com", cookie := [] }

/-- C7 counterexample: the shared `"iframe"` identifier is used for a
request that carries neither the iframe-rendering header nor a loopback
host — the truthy `iframe` query parameter alone forces it, so "exactly
when both conditions hold" fails. -/
theorem is_local_iframe_query_param_cex :
    SessionPyState._is_local_iframe iframeQueryRequest = true
    ∧ iframeQueryRequest.sec_fetch_dest ≠ some "iframe"
    ∧ iframeQueryRequest.host = "app.example.com"
    ∧ SessionPyState.resolve_session_id iframeQueryRequest = some "iframe" := by decide
